import Mathlib

/-!
Verification of the opportunity-evaluation and trade-decision engine of the
`arbitrage-pol` bot (src/index.js and src/unnamed/part_001).

Shallow embedding conventions:
* ethers `BigNumber` amounts (gas prices, gas costs, fee estimates) are `Nat`;
  `BigNumber.div` on non-negative operands is floor division, i.e. `Nat.div`.
* Prices and profits are `Int` (profits may be negative after gas subtraction).
* A value that JavaScript obtains from an external call is an explicit input:
  a fetch that may return `null` is an `Option`, a call that may throw is an
  `Except Unit`.  The `try { ... } catch` around a whole pass is the
  `Except`-propagation of the loop.
* The SDK `Trade` object is reduced to the fields the engine reads: the venue
  it came from, its `executionPrice`, and its route path.
-/

set_option autoImplicit false

namespace ArbitragePol

/-- The two DEX venues compared by the bot. -/
inductive Venue where
  | uniswap
  | sushiswap
deriving DecidableEq, Repr

/-- The view of an SDK `Trade` object that the engine reads: which venue
produced it, its execution price (a scaled fixed-point value), and its route
path (token addresses, abstracted to numbers). -/
structure DexTrade where
  venue : Venue
  executionPrice : Int
  route : List Nat
deriving DecidableEq, Repr

/-- `src/index.js` line 80: `const gasEstimate = ethers.BigNumber.from(200_000n)`. -/
def gasEstimateUnits : Nat := 200000

/-- `src/unnamed/part_001` line 93: `const gasEstimate = ethers.BigNumber.from(250000)`. -/
def gasEstimateUnits_v1 : Nat := 250000

/-- `estimateGasCost` from `src/index.js` lines 77-82.  The observed network
gas price is the explicit `gasPrice` input (the value `provider.getGasPrice()`
resolved to); the `trade` argument is received but never read. -/
def estimateGasCost (trade : DexTrade) (gasPrice : Nat) : Nat :=
  let adjustedGasPrice := gasPrice * 110 / 100
  adjustedGasPrice * gasEstimateUnits

/-- `estimateGasCost` from `src/unnamed/part_001` lines 90-95; identical except
for the 250000 gas-unit constant. -/
def estimateGasCost_v1 (trade : DexTrade) (gasPrice : Nat) : Nat :=
  let adjustedGasPrice := gasPrice * 110 / 100
  adjustedGasPrice * gasEstimateUnits_v1

/-- `calculateProfit` from `src/index.js` lines 91-94:
`executionPrice.raw.sub(gasCost)`.  The first argument is the numeric value of
`executionPrice.raw`. -/
def calculateProfit (executionPriceRaw : Int) (gasCost : Int) : Int :=
  executionPriceRaw - gasCost

/-- `calculateProfit` from `src/unnamed/part_001` lines 98-102:
`const amountOut = executionPrice.raw; const profit = amountOut - gasCost.toString()`.
JavaScript coerces the string back to a number, so the subtraction is numeric;
the `amountIn` parameter is received but never read. -/
def calculateProfit_v1 (executionPriceRaw : Int) (gasCost : Int) (amountIn : Int) : Int :=
  let amountOut := executionPriceRaw
  amountOut - gasCost

/-- The spec's profit formula, stated for comparison with `calculateProfit`
(spec section 4.3): "Net profit = value of output at best quote − value of
input − gas cost, all expressed in a single unit". -/
def specNetProfit (outputValue inputValue gasCost : Int) : Int :=
  outputValue - inputValue - gasCost

/-- JavaScript `Array.prototype.reduce` without an initial value, specialised
to the reducer used at `src/index.js` lines 231-236: the accumulator starts at
the first element and `current` replaces `best` exactly when
`current.executionPrice.lessThan(best.executionPrice)`. -/
def reduceBest : DexTrade → List DexTrade → DexTrade
  | best, [] => best
  | best, current :: rest =>
      reduceBest (if current.executionPrice < best.executionPrice then current else best) rest

/-- `[uniswapTrade, sushiTrade].reduce(...)` from `src/index.js` lines 231-236
(identically `src/unnamed/part_001` lines 250-255): the Uniswap trade is the
first element of the reduced array. -/
def bestCurrentTrade (uniswapTrade sushiTrade : DexTrade) : DexTrade :=
  reduceBest uniswapTrade [sushiTrade]

/-- What one iteration of the candidate loop of `src/index.js` observes from
the outside world for one token pair:
* `uniswapPrice`: the execution price of the Uniswap trade, or `none` when
  `fetchPairs` returned `null` (it catches its own errors);
* `sushiFetch`: the SushiSwap side, `Except.error` when
  `SushiFetcher.fetchPairData` throws (that call has no local handler),
  `Except.ok none` when it yields a falsy pair, `Except.ok (some p)` when the
  Sushi trade's execution price is `p`;
* `gasPrice`: the network gas price observed by `estimateGasCost` for this
  candidate. -/
structure CandidateData where
  uniswapPrice : Option Int
  sushiFetch : Except Unit (Option Int)
  gasPrice : Nat

/-- The mutable state of one evaluator pass: `let bestTrade = null` and
`let bestProfit = 0n` of `src/index.js` lines 181-182. -/
structure LoopState where
  bestTrade : Option DexTrade
  bestProfit : Int
deriving DecidableEq, Repr

/-- One iteration of the double loop of `src/index.js` lines 188-249 for one
candidate pair.  `continue` leaves the state unchanged; an uncaught throw from
the SushiSwap fetch is propagated as `Except.error`.  The retained best is
overwritten whenever `potentialProfit.gt(minimumProfitThreshold)` (line 244). -/
def evalCandidate (minimumProfitThreshold : Int) (st : LoopState) (c : CandidateData) :
    Except Unit LoopState :=
  match c.uniswapPrice with
  | none => .ok st
  | some uPrice =>
    match c.sushiFetch with
    | .error e => .error e
    | .ok none => .ok st
    | .ok (some sPrice) =>
      let uniswapTrade : DexTrade := ⟨.uniswap, uPrice, []⟩
      let sushiTrade : DexTrade := ⟨.sushiswap, sPrice, []⟩
      let best := bestCurrentTrade uniswapTrade sushiTrade
      let gasCost := estimateGasCost best c.gasPrice
      let potentialProfit := calculateProfit best.executionPrice (Int.ofNat gasCost)
      if minimumProfitThreshold < potentialProfit then
        .ok ⟨some best, potentialProfit⟩
      else
        .ok st

/-- The candidate loop of `src/index.js` lines 188-249 run over a list of
candidate observations.  An `Except.error` models an exception escaping to the
pass-level `catch`, which abandons the remaining candidates. -/
def runLoop (minimumProfitThreshold : Int) :
    List CandidateData → LoopState → Except Unit LoopState
  | [], st => .ok st
  | c :: rest, st =>
    match evalCandidate minimumProfitThreshold st c with
    | .error e => .error e
    | .ok st2 => runLoop minimumProfitThreshold rest st2

/-- The outcome of one evaluator pass, after the spec's
`PassResult{opportunityFound, executed, error?}`. -/
structure PassResult where
  opportunityFound : Bool
  executed : Bool
  errored : Bool
deriving DecidableEq, Repr

/-- `evaluatePairsAcrossDEXs` from `src/index.js` lines 178-266.  `stoch` is
the value the `stochasticDecision(...)` call would return (its `Math.random()`
draw is ambient, so its outcome is an input here); by JavaScript short-circuit
evaluation it is consulted only when `bestProfit.gt(0n)` is false.  The
pass-level `catch` (line 262) turns an escaped exception into a completed pass
with an error report and no trade. -/
def evaluatePairsAcrossDEXs (minimumProfitThreshold : Int) (stoch : Bool)
    (cands : List CandidateData) : PassResult :=
  match runLoop minimumProfitThreshold cands ⟨none, 0⟩ with
  | .error _ => ⟨false, false, true⟩
  | .ok st =>
    match st.bestTrade with
    | some _ =>
      if 0 < st.bestProfit then ⟨true, true, false⟩
      else if stoch then ⟨true, true, false⟩
      else ⟨true, false, false⟩
    | none => ⟨false, false, false⟩

/-- What one iteration of the candidate loop of `src/unnamed/part_001`
observes for one token pair.  In addition to the fields of `CandidateData`:
* `sufficientBalance`: whether `hasSufficientBalance` succeeded for at least
  one of the two tokens (lines 185-201; `getTokenBalance` catches its own
  errors and returns `'0'`, so this check never throws);
* `amountToTrade`: the amount computed at line 206. -/
structure CandidateData1 where
  sufficientBalance : Bool
  amountToTrade : Int
  uniswapPrice : Option Int
  sushiFetch : Except Unit (Option Int)
  gasPrice : Nat

/-- One iteration of the double loop of `src/unnamed/part_001` lines 175-269.
The retained best is overwritten whenever `potentialProfit > 0` (line 265). -/
def evalCandidate_v1 (st : LoopState) (c : CandidateData1) : Except Unit LoopState :=
  if !c.sufficientBalance then .ok st
  else
    match c.uniswapPrice with
    | none => .ok st
    | some uPrice =>
      match c.sushiFetch with
      | .error e => .error e
      | .ok none => .ok st
      | .ok (some sPrice) =>
        let uniswapTrade : DexTrade := ⟨.uniswap, uPrice, []⟩
        let sushiTrade : DexTrade := ⟨.sushiswap, sPrice, []⟩
        let best := bestCurrentTrade uniswapTrade sushiTrade
        let gasCost := estimateGasCost_v1 best c.gasPrice
        let potentialProfit :=
          calculateProfit_v1 best.executionPrice (Int.ofNat gasCost) c.amountToTrade
        if 0 < potentialProfit then
          .ok ⟨some best, potentialProfit⟩
        else
          .ok st

/-- The candidate loop of `src/unnamed/part_001` lines 175-270. -/
def runLoop_v1 : List CandidateData1 → LoopState → Except Unit LoopState
  | [], st => .ok st
  | c :: rest, st =>
    match evalCandidate_v1 st c with
    | .error e => .error e
    | .ok st2 => runLoop_v1 rest st2

/-- `evaluatePairsAcrossDEXs` from `src/unnamed/part_001` lines 168-285.  The
deterministic decision at line 272 takes the execute branch exactly when
`bestTrade && bestProfit >= MINIMUM_PROFIT_THRESHOLD`.  But the call at line
273, `executeTrade(bestTrade, amountToTrade)`, reads `amountToTrade`, whose
only `const` declaration in this function (line 206) is scoped to the inner
loop body; evaluating the argument therefore throws a `ReferenceError`, which
the pass-level `catch` (line 278) absorbs: the trade is never executed and
the pass ends in the error handler. -/
def evaluatePairsAcrossDEXs_v1 (MINIMUM_PROFIT_THRESHOLD : Int)
    (cands : List CandidateData1) : PassResult :=
  match runLoop_v1 cands ⟨none, 0⟩ with
  | .error _ => ⟨false, false, true⟩
  | .ok st =>
    match st.bestTrade with
    | some _ =>
      if MINIMUM_PROFIT_THRESHOLD ≤ st.bestProfit then
        -- line 273 throws before executeTrade is entered; caught at line 278
        ⟨true, false, true⟩
      else ⟨true, false, false⟩
    | none => ⟨false, false, false⟩

/-- An AMM pair as the triangular evaluator uses it: a `Trade` built on the
pair with `TradeType.EXACT_INPUT` turns an input amount into
`trade.outputAmount`; that map is the pair's quote function. -/
structure AmmPair where
  quote : Nat → Nat

/-- The profit computation of `evaluateTriangularArbitrage`,
`src/unnamed/part_001` lines 345-371: `trade1` spends `amountToTrade` on
`pair1`, `trade2` spends `trade1.outputAmount` on `pair2`, `trade3` spends
`trade2.outputAmount` on `pair3`, and
`profit = trade3.outputAmount.subtract(amountToTrade)`. -/
def evaluateTriangularProfit (pair1 pair2 pair3 : AmmPair) (amountToTrade : Nat) : Int :=
  let trade1Out := pair1.quote amountToTrade
  let trade2Out := pair2.quote trade1Out
  let trade3Out := pair3.quote trade2Out
  (trade3Out : Int) - (amountToTrade : Int)

/-- The two candidates used to exercise the best-tracking loop: at gas price 0
the first evaluates to profit 10, the second to profit 5 (Uniswap is the
cheaper venue in both). -/
def candidateA : CandidateData := ⟨some 10, .ok (some 20), 0⟩

/-- See `candidateA`. -/
def candidateB : CandidateData := ⟨some 5, .ok (some 20), 0⟩

/-- A candidate whose SushiSwap fetch throws. -/
def failingCandidate : CandidateData := ⟨some 10, .error (), 0⟩

/-- A candidate that on its own yields a retained opportunity and a trade. -/
def profitableCandidate : CandidateData := ⟨some 50, .ok (some 60), 0⟩

/-- C1: the code evaluated at the failing input.  `calculateProfit` returns
`executionPrice.raw − gasCost` and never subtracts the value of the input:
at output value 10, input value 1 and gas cost 2 both source versions return
10 − 2 = 8, while the claimed formula `output − input − gas` gives 7. -/
theorem calculateProfit_drops_input_value :
    calculateProfit 10 2 = 8 ∧ calculateProfit_v1 10 2 1 = 8 ∧
    specNetProfit 10 1 2 = 7 ∧ calculateProfit 10 2 ≠ specNetProfit 10 1 2 := by
  decide

/-- C2: the code evaluated at the failing input.  With threshold 1, candidate A
is evaluated to profit 10 and retained; candidate B, with the strictly smaller
profit 5, then overwrites it, because the update condition at
`src/index.js` line 244 compares the new profit against the threshold and
never against the retained best.  The pass ends holding profit 5, not the
maximum 10. -/
theorem retained_best_is_last_qualifying_not_max :
    evalCandidate 1 ⟨none, 0⟩ candidateA = .ok ⟨some ⟨.uniswap, 10, []⟩, 10⟩ ∧
    runLoop 1 [candidateA, candidateB] ⟨none, 0⟩ = .ok ⟨some ⟨.uniswap, 5, []⟩, 5⟩ ∧
    (5 : Int) < 10 := by
  refine ⟨rfl, rfl, by decide⟩

/-- C3: the code evaluated at the failing input.  The loop retains an
opportunity with profit 5, exactly equal to the threshold 5, so the
deterministic decision at `src/unnamed/part_001` line 272 takes the execute
branch — but the call at line 273 reads the out-of-scope `amountToTrade` and
throws a `ReferenceError` caught at line 278, so no trade is executed and the
pass ends errored, where the claim requires the trade to be executed. -/
theorem boundary_equality_decision_throws_not_executes :
    runLoop_v1 [⟨true, 1, some 5, .ok (some 6), 0⟩] ⟨none, 0⟩ =
      .ok ⟨some ⟨.uniswap, 5, []⟩, 5⟩ ∧
    evaluatePairsAcrossDEXs_v1 5 [⟨true, 1, some 5, .ok (some 6), 0⟩] =
      ⟨true, false, true⟩ :=
  ⟨rfl, rfl⟩

/-- C4: in the reduce-based two-venue comparison, the trade with the strictly
lower execution price is selected whichever venue offers it, and on an exact
price tie the Uniswap trade — the first element of the reduced array — is
kept, so the selection is deterministic. -/
theorem bestCurrentTrade_picks_lower_price_tie_uniswap
    (uPrice sPrice : Int) (uRoute sRoute : List Nat) :
    (sPrice < uPrice →
        bestCurrentTrade ⟨.uniswap, uPrice, uRoute⟩ ⟨.sushiswap, sPrice, sRoute⟩ =
          ⟨.sushiswap, sPrice, sRoute⟩) ∧
    (uPrice < sPrice →
        bestCurrentTrade ⟨.uniswap, uPrice, uRoute⟩ ⟨.sushiswap, sPrice, sRoute⟩ =
          ⟨.uniswap, uPrice, uRoute⟩) ∧
    (uPrice = sPrice →
        bestCurrentTrade ⟨.uniswap, uPrice, uRoute⟩ ⟨.sushiswap, sPrice, sRoute⟩ =
          ⟨.uniswap, uPrice, uRoute⟩) := by
  refine ⟨fun h => ?_, fun h => ?_, fun h => ?_⟩
  · simp only [bestCurrentTrade, reduceBest]
    rw [if_pos h]
  · simp only [bestCurrentTrade, reduceBest]
    rw [if_neg (not_lt.mpr (le_of_lt h))]
  · simp only [bestCurrentTrade, reduceBest]
    rw [if_neg (h ▸ lt_irrefl sPrice)]

/-- C4 witness: the comparison evaluated at concrete prices 7 vs 3 (Sushi
cheaper), 3 vs 7 (Uniswap cheaper) and the exact tie 5 vs 5. -/
theorem bestCurrentTrade_picks_lower_price_tie_uniswap_holds :
    bestCurrentTrade ⟨.uniswap, 7, []⟩ ⟨.sushiswap, 3, []⟩ = ⟨.sushiswap, 3, []⟩ ∧
    bestCurrentTrade ⟨.uniswap, 3, []⟩ ⟨.sushiswap, 7, []⟩ = ⟨.uniswap, 3, []⟩ ∧
    bestCurrentTrade ⟨.uniswap, 5, []⟩ ⟨.sushiswap, 5, []⟩ = ⟨.uniswap, 5, []⟩ :=
  ⟨(bestCurrentTrade_picks_lower_price_tie_uniswap 7 3 [] []).1 (by decide),
   (bestCurrentTrade_picks_lower_price_tie_uniswap 3 7 [] []).2.1 (by decide),
   (bestCurrentTrade_picks_lower_price_tie_uniswap 5 5 [] []).2.2 rfl⟩

/-- C5 counterexample: a SushiSwap fetch that throws on the first candidate
aborts the pass at the pass-level catch — the later candidate, which alone
yields an opportunity and an executed trade, is never evaluated, so the
claim that the evaluator proceeds to every remaining candidate fails. -/
theorem sushi_fetch_error_aborts_pass :
    evaluatePairsAcrossDEXs 1 false [failingCandidate, profitableCandidate] =
      ⟨false, false, true⟩ ∧
    evaluatePairsAcrossDEXs 1 false [profitableCandidate] = ⟨true, true, false⟩ :=
  ⟨rfl, rfl⟩

/-- C5 (amended): a candidate whose Uniswap fetch returned `null`, or whose
SushiSwap fetch produced a falsy pair, is skipped and the loop continues over
the remaining candidates with the state unchanged; but a SushiSwap fetch that
throws aborts the loop, so the remaining candidates are not evaluated. -/
theorem candidate_failure_skip_or_abort (thr : Int) (st : LoopState)
    (c : CandidateData) (rest : List CandidateData) :
    (c.uniswapPrice = none → runLoop thr (c :: rest) st = runLoop thr rest st) ∧
    (∀ u, c.uniswapPrice = some u → c.sushiFetch = .ok none →
        runLoop thr (c :: rest) st = runLoop thr rest st) ∧
    (∀ u, c.uniswapPrice = some u → c.sushiFetch = .error () →
        runLoop thr (c :: rest) st = .error ()) := by
  refine ⟨fun h => ?_, fun u hu hs => ?_, fun u hu hs => ?_⟩
  · simp [runLoop, evalCandidate, h]
  · simp [runLoop, evalCandidate, hu, hs]
  · simp [runLoop, evalCandidate, hu, hs]

/-- C5 witness: the three skip/abort behaviours evaluated at concrete
candidates in front of an empty remainder. -/
theorem candidate_failure_skip_or_abort_holds :
    runLoop 1 [⟨none, .ok none, 0⟩] ⟨none, 0⟩ = runLoop 1 [] ⟨none, 0⟩ ∧
    runLoop 1 [⟨some 3, .ok none, 0⟩] ⟨none, 0⟩ = runLoop 1 [] ⟨none, 0⟩ ∧
    runLoop 1 [⟨some 3, .error (), 0⟩] ⟨none, 0⟩ = .error () :=
  ⟨(candidate_failure_skip_or_abort 1 ⟨none, 0⟩ ⟨none, .ok none, 0⟩ []).1 rfl,
   (candidate_failure_skip_or_abort 1 ⟨none, 0⟩ ⟨some 3, .ok none, 0⟩ []).2.1 3 rfl rfl,
   (candidate_failure_skip_or_abort 1 ⟨none, 0⟩ ⟨some 3, .error (), 0⟩ []).2.2 3 rfl rfl⟩

/-- C6: with an empty token universe both evaluator passes complete normally:
no opportunity found, nothing executed, no error raised. -/
theorem empty_universe_pass_completes :
    (∀ (thr : Int) (stoch : Bool),
        evaluatePairsAcrossDEXs thr stoch [] = ⟨false, false, false⟩) ∧
    (∀ thr : Int, evaluatePairsAcrossDEXs_v1 thr [] = ⟨false, false, false⟩) :=
  ⟨fun _ _ => rfl, fun _ => rfl⟩

/-- C7: both gas estimators return exactly `gasPrice * 110 / 100 * gasUnits`
in integer (floor-division) arithmetic — a 10% buffer applied to the observed
gas price before multiplying by the flat gas-unit constant. -/
theorem estimateGasCost_buffer_formula :
    (∀ (t : DexTrade) (p : Nat),
        estimateGasCost t p = p * 110 / 100 * gasEstimateUnits) ∧
    (∀ (t : DexTrade) (p : Nat),
        estimateGasCost_v1 t p = p * 110 / 100 * gasEstimateUnits_v1) :=
  ⟨fun _ _ => rfl, fun _ _ => rfl⟩

/-- C9: the triangular-arbitrage profit is the output of the third hop applied
to the output of the second hop applied to the output of the first hop on the
original input — each hop's output feeding the next hop's input — minus the
original input amount. -/
theorem triangular_profit_is_three_hop_composition
    (pair1 pair2 pair3 : AmmPair) (amountToTrade : Nat) :
    evaluateTriangularProfit pair1 pair2 pair3 amountToTrade =
      (pair3.quote (pair2.quote (pair1.quote amountToTrade)) : Int) -
        (amountToTrade : Int) :=
  rfl

/-- C10: the fee estimate never depends on the trade argument: any two trades
— whatever their routes — evaluated at the same observed gas price receive the
identical estimate, in both source versions. -/
theorem estimateGasCost_independent_of_trade (t1 t2 : DexTrade) (p : Nat) :
    estimateGasCost t1 p = estimateGasCost t2 p ∧
    estimateGasCost_v1 t1 p = estimateGasCost_v1 t2 p :=
  ⟨rfl, rfl⟩

end ArbitragePol
